import Mathlib

/-!
# Verification of the CustomerCare-ChatBot invoice core

A shallow embedding of `backend/core/agent.py`: the invoice draft data
model, the item merger and scalar-field precedence of
`InvoiceParser.update_draft`, `InvoiceEngine.validate` / `suggestions`,
the monetary figure computation used by `InvoiceEngine.render_invoice`
(the computed fields live in `backend/core/models.py`), and the routing
and session lifecycle of `InvoiceAssistantChatbot.process_message` over
`SessionManager`.

Python floats are modelled as rationals, `None`-able values as `Option`,
the external LLM call, the persistence sink, the wall clock and the
general-assistant fallback as explicit parameters.
-/

namespace CCBot

/-- Shape of `InvoiceItem` from `models.py` as used by `agent.py`: a display name,
a quantity and a unit price. -/
structure InvoiceItem where
  name : String
  quantity : ℚ
  unit_price : ℚ
deriving DecidableEq, Repr

/-- The scalar and item fields of `InvoiceSchema` that `agent.py`
reads and writes, exposed through the `InvoiceDraft` wrapper class
(`agent.py` lines 25-130).  The per-draft `invoice_id` (generated in the
absent `models.py`) carries no invoice data and is omitted, matching the
spec data model in section 3. -/
structure InvoiceDraft where
  invoice_number : Option String
  customer_name : Option String
  customer_email : Option String
  customer_gst : Option String
  invoice_date : Option String
  due_date : Option String
  currency : String
  tax_percent : ℚ
  shipping_fee : ℚ
  discount : ℚ
  discount_code : Option String
  items : List InvoiceItem
deriving DecidableEq, Repr

/-- The draft a fresh `InvoiceSchema()` yields: every optional field
unset, currency `"INR"`, numeric fields `0`, no items (spec section 3
defaults; `agent.py` line 30). -/
def emptyDraft : InvoiceDraft :=
  { invoice_number := none
    customer_name := none
    customer_email := none
    customer_gst := none
    invoice_date := none
    due_date := none
    currency := "INR"
    tax_percent := 0
    shipping_fee := 0
    discount := 0
    discount_code := none
    items := [] }

/-! ## Item merging (`update_draft`, `agent.py` lines 287-302) -/

/-- ASCII lowering of one character, the effect of Python `str.lower()`
on the ASCII range (all names in the claims are ASCII). -/
def lowChar (c : Char) : Char :=
  if 65 ≤ c.toNat ∧ c.toNat ≤ 90 then Char.ofNat (c.toNat + 32) else c

/-- The character sequence of `s.lower()` as `agent.py` line 293
compares item names. -/
def lowName (s : String) : List Char := s.data.map lowChar

/-- ASCII whitespace test, as Python `str.strip()` strips (restricted to
the characters that can occur here). -/
def isWs (c : Char) : Bool := c = ' ' || c = '\t' || c = '\n' || c = '\r'

/-- Python `str.strip()` on a character sequence: drop whitespace from
both ends. -/
def trimChars (l : List Char) : List Char :=
  ((l.dropWhile isWs).reverse.dropWhile isWs).reverse

/-- One pass of the inner loop of the merge in `update_draft`: scan the
accumulated list front to back for the first entry whose lowercased name
equals the lowercased name of the new item; on a hit add the quantity and
overwrite the unit price in place (break), otherwise append the new item
at the end. -/
def mergeOne : List InvoiceItem → InvoiceItem → List InvoiceItem
  | [], n => [n]
  | e :: rest, n =>
    if lowName e.name = lowName n.name then
      { e with quantity := e.quantity + n.quantity, unit_price := n.unit_price } :: rest
    else
      e :: mergeOne rest n

/-- The merge loop of `update_draft`: fold each new item into the
existing list with `mergeOne`, left to right. -/
def mergeItems (existing newItems : List InvoiceItem) : List InvoiceItem :=
  newItems.foldl mergeOne existing

/-- The item merge as the spec words it (section 4.2): name matching is
case-insensitive AND whitespace-trimmed.  Kept only to compare against
`mergeItems`; the code (`agent.py` line 293) never trims. -/
def mergeOneSpecTrim : List InvoiceItem → InvoiceItem → List InvoiceItem
  | [], n => [n]
  | e :: rest, n =>
    if trimChars (lowName e.name) = trimChars (lowName n.name) then
      { e with quantity := e.quantity + n.quantity, unit_price := n.unit_price } :: rest
    else
      e :: mergeOneSpecTrim rest n

/-- Spec-worded merge lifted to lists, for comparison with `mergeItems`. -/
def mergeItemsSpecTrim (existing newItems : List InvoiceItem) : List InvoiceItem :=
  newItems.foldl mergeOneSpecTrim existing

/-! ## The external patch and `update_draft` (`agent.py` lines 219-348)

`update_draft` sends the utterance to the LLM and regex-extracts one JSON
object from the reply.  A JSON key can be absent (Python `dict.get(k, d)`
then yields the second argument) or present — and a present nullable key
can hold `null`.  Both levels are modelled with `Option`. -/

/-- The JSON object extracted from the external LLM reply.  Outer
`Option`: the key is present in the dict; inner `Option` (for the
nullable string fields of the JSON structure in the prompt): the present
value may be `null`. -/
structure Patch where
  invoice_number : Option (Option String)
  customer_name : Option (Option String)
  customer_email : Option (Option String)
  customer_gst : Option (Option String)
  currency : Option String
  tax_percent : Option ℚ
  shipping_fee : Option ℚ
  discount : Option ℚ
  discount_code : Option (Option String)
  items : Option (List InvoiceItem)
deriving DecidableEq, Repr

/-- Python truthiness of an optional draft string (`not value`): unset
(`None`) or the empty string. -/
def isBlank (o : Option String) : Bool :=
  match o with
  | none => true
  | some s => s.data.isEmpty

/-- The successful path of `update_draft` (lines 269-315): every scalar
field takes the patch value when the key is present (`dict.get`),
otherwise the draft value; items are merged with `mergeItems` against
the current items of the draft; the rebuilt `InvoiceSchema` has NO date keys
in `validated_data`, so both dates restart unset and the
default-if-unset step (lines 310-315) then fills them with today and
today + 7 days. -/
def applyValid (d : InvoiceDraft) (p : Patch) (today plus7 : String) : InvoiceDraft :=
  let base : InvoiceDraft :=
    { invoice_number := p.invoice_number.getD d.invoice_number
      customer_name := p.customer_name.getD d.customer_name
      customer_email := p.customer_email.getD d.customer_email
      customer_gst := p.customer_gst.getD d.customer_gst
      invoice_date := none
      due_date := none
      currency := p.currency.getD d.currency
      tax_percent := p.tax_percent.getD d.tax_percent
      shipping_fee := p.shipping_fee.getD d.shipping_fee
      discount := p.discount.getD d.discount
      discount_code := p.discount_code.getD d.discount_code
      items := mergeItems d.items (p.items.getD []) }
  let base1 :=
    if isBlank base.invoice_date then { base with invoice_date := some today } else base
  if isBlank base1.due_date then { base1 with due_date := some plus7 } else base1

/-- The `ValidationError` fallback path of `update_draft` (lines
317-345): the same extracted JSON is applied directly to the draft
object in place — the item list is REPLACED (not merged) when the
`items` key is present, scalar fields take present values via
`dict.get` (currency is not touched on this path), and each date is
defaulted only when still unset. -/
def applyInvalid (d : InvoiceDraft) (p : Patch) (today plus7 : String) : InvoiceDraft :=
  let base : InvoiceDraft :=
    { d with
      items := p.items.getD d.items
      invoice_number := p.invoice_number.getD d.invoice_number
      customer_name := p.customer_name.getD d.customer_name
      customer_email := p.customer_email.getD d.customer_email
      customer_gst := p.customer_gst.getD d.customer_gst
      tax_percent := p.tax_percent.getD d.tax_percent
      shipping_fee := p.shipping_fee.getD d.shipping_fee
      discount := p.discount.getD d.discount
      discount_code := p.discount_code.getD d.discount_code }
  let base1 :=
    if isBlank base.invoice_date then { base with invoice_date := some today } else base
  if isBlank base1.due_date then { base1 with due_date := some plus7 } else base1

/-- How one `update_draft` call went: the extracted JSON passed
`InvoiceSchema(**validated_data)` (valid), raised a pydantic
`ValidationError` (invalid), or the turn failed before that point — no
JSON object in the reply or the LLM call raised (failed). -/
inductive PatchOutcome where
  | valid (p : Patch)
  | invalid (p : Patch)
  | failed
deriving DecidableEq, Repr

/-- The draft object `update_draft` RETURNS to `process_message`. -/
def updateDraft (d : InvoiceDraft) (o : PatchOutcome) (today plus7 : String) : InvoiceDraft :=
  match o with
  | .valid p => applyValid d p today plus7
  | .invalid p => applyInvalid d p today plus7
  | .failed => d

/-- What the stored draft object of the SESSION holds after `update_draft`
returns.  On the successful path a brand-new `InvoiceDraft` is
constructed (line 308) and returned, and `process_message` never writes
it back into `SessionManager.sessions`, so the stored object keeps its
old contents; on the `ValidationError` path the stored object itself is
mutated through the property setters; on the failed path it is
untouched. -/
def storedAfterUpdate (d : InvoiceDraft) (o : PatchOutcome) (today plus7 : String) :
    InvoiceDraft :=
  match o with
  | .valid _ => d
  | .invalid p => applyInvalid d p today plus7
  | .failed => d

/-! ## Validation and suggestions (`InvoiceEngine`, `agent.py` lines 363-387) -/

/-- Model of `InvoiceEngine.validate`: the ordered list of missing required
fields — customer name, then customer email, then a non-empty item
list. -/
def validate (d : InvoiceDraft) : List String :=
  (if isBlank d.customer_name then ["customer_name"] else []) ++
  (if isBlank d.customer_email then ["customer_email"] else []) ++
  (if d.items.isEmpty then ["items"] else [])

/-- The four literal follow-up prompts of `InvoiceEngine.suggestions`. -/
def tipName : String := "What is the customer\x27s name?"

/-- Prompt for a missing customer email. -/
def tipEmail : String := "Could you provide their email address?"

/-- Prompt for a missing GST number. -/
def tipGst : String := "Do you have a GST number to include? (Optional but recommended)"

/-- Prompt for a missing discount code. -/
def tipDiscount : String := "Do you have any discount codes or offers to apply?"

/-- Model of `InvoiceEngine.suggestions`: one fixed prompt per unset field, in
the fixed order name, email, GST, discount code.  No prompt mentions
line items. -/
def suggestions (d : InvoiceDraft) : List String :=
  (if isBlank d.customer_name then [tipName] else []) ++
  (if isBlank d.customer_email then [tipEmail] else []) ++
  (if isBlank d.customer_gst then [tipGst] else []) ++
  (if isBlank d.discount_code then [tipDiscount] else [])

/-! ## Monetary figures (computed fields of `InvoiceSchema.to_dict`)

`render_invoice` reads `subtotal`, `tax_amount`, `discount` and
`grand_total` out of `draft.to_dict()` and `line_total` off each item;
those computed fields live in `backend/core/models.py`, which is not
under `src/`, so they are modelled from the spec (section 4.5). -/

/-- Modelled from the spec: round-half-to-even to the nearest integer,
the rounding mode of section 4.5 (and of Python `round`).  The
fractional part decides; an exact half goes to the even neighbour. -/
def roundHalfEven (x : ℚ) : ℤ :=
  if x - ⌊x⌋ < 1 / 2 then ⌊x⌋
  else if 1 / 2 < x - ⌊x⌋ then ⌊x⌋ + 1
  else if ⌊x⌋ % 2 = 0 then ⌊x⌋ else ⌊x⌋ + 1

/-- Modelled from the spec: `round(x, 2)`, rounding to 2 decimal places
half-to-even. -/
def round2 (x : ℚ) : ℚ := (roundHalfEven (100 * x) : ℚ) / 100

/-- Modelled from the spec: the derived `line_total` of an item in
`models.py`, `round(quantity * unit_price, 2)` (spec section 3). -/
def line_total (it : InvoiceItem) : ℚ := round2 (it.quantity * it.unit_price)

/-- The four computed monetary figures a render exposes (spec section
3, RenderedInvoice). -/
structure RenderedFigures where
  subtotal : ℚ
  tax_amount : ℚ
  shipping_fee : ℚ
  discount : ℚ
  grand_total : ℚ
deriving DecidableEq, Repr

/-- Modelled from the spec: the computed monetary fields of
`InvoiceSchema.to_dict` in the absent `models.py`, per spec section 4.5:
subtotal is the re-rounded sum of the per-item rounded line totals, tax
derives from the subtotal, the grand total from subtotal, tax, shipping
and discount. -/
def renderFigures (d : InvoiceDraft) : RenderedFigures :=
  let st := round2 ((d.items.map line_total).sum)
  let tax := round2 (st * d.tax_percent / 100)
  { subtotal := st
    tax_amount := tax
    shipping_fee := d.shipping_fee
    discount := d.discount
    grand_total := round2 (st + tax + d.shipping_fee - d.discount) }

/-! ## Rendering text (`InvoiceEngine.render_invoice`, lines 389-411) -/

/-- Python `"\n".join` and friends: concatenate with a separator. -/
def joinWith (sep : String) : List String → String
  | [] => ""
  | [x] => x
  | x :: y :: rest => x ++ sep ++ joinWith sep (y :: rest)

/-- Two-digit decimal padding for the fraction part of a money string. -/
def pad2 (n : Nat) : String := if n < 10 then "0" ++ toString n else toString n

/-- Python `f"{x:.2f}"` on a float, modelled on rationals: the value
rounded half-to-even to 2 decimals, printed with exactly 2 fraction
digits. -/
def fmt2 (x : ℚ) : String :=
  (if roundHalfEven (100 * x) < 0 then "-" else "") ++
  toString ((roundHalfEven (100 * x)).natAbs / 100) ++ "." ++
  pad2 ((roundHalfEven (100 * x)).natAbs % 100)

/-- Python `f"{x:g}"` modelled on rationals: integral values print with
no fraction part, others fall back to the raw rational printing (the
claims never inspect such a string). -/
def fmtG (x : ℚ) : String :=
  if x.den = 1 then toString x.num else toString x

/-- Python string interpolation of an optional value: `None` prints as
the literal text `None`. -/
def optStr (o : Option String) : String :=
  match o with
  | none => "None"
  | some s => s

/-- Python `value or alternative` for an optional string: the alternative
when the value is unset or empty. -/
def orElseStr (o : Option String) (alt : String) : String :=
  if isBlank o then alt else optStr o

/-- Model of `InvoiceEngine.render_invoice` (lines 389-411): header
block, one bullet line per item in draft order, then the totals block
computed by `renderFigures`. -/
def renderInvoice (d : InvoiceDraft) : String :=
  let fig := renderFigures d
  joinWith "\n" (
    [ "🧾 **Invoice " ++ orElseStr d.invoice_number "DRAFT" ++ "**"
    , "**Customer:** " ++ optStr d.customer_name
    , "**Email:** " ++ optStr d.customer_email
    , "**GSTIN:** " ++ orElseStr d.customer_gst "Not Provided"
    , "**Date:** " ++ optStr d.invoice_date
    , ""
    , "**Line Items**" ]
    ++ d.items.map (fun it =>
        "• " ++ it.name ++ " — " ++ fmtG it.quantity ++ " × " ++ fmt2 it.unit_price
          ++ " = " ++ fmt2 (line_total it))
    ++ [ ""
       , "**Subtotal:** ₹" ++ fmt2 fig.subtotal
       , "**GST (" ++ fmtG d.tax_percent ++ "%):** ₹" ++ fmt2 fig.tax_amount
       , "**Shipping:** ₹" ++ fmt2 d.shipping_fee
       , "**Discount:** -₹" ++ fmt2 fig.discount ++ " " ++
           (match d.discount_code with
            | some c => if c.data.isEmpty then "" else "(" ++ c ++ ")"
            | none => "")
       , "✅ **Grand Total:** ₹" ++ fmt2 fig.grand_total ])

/-! ## Sessions and the controller (`SessionManager`,
`InvoiceAssistantChatbot.process_message`, lines 132-161 and 414-482)

Only the draft store is modelled; the per-session conversation history
feeds nothing but the LLM prompt text, which is already abstracted into
the patch outcome.  The Python dict is an association list with unique
keys. -/

/-- In-memory session store `SessionManager.sessions`. -/
abbrev SessionMap := List (String × InvoiceDraft)

/-- Dict lookup `sessions.get(session_id)`. -/
def lookupSession : SessionMap → String → Option InvoiceDraft
  | [], _ => none
  | (k, v) :: rest, sid => if k = sid then some v else lookupSession rest sid

/-- Dict write `sessions[session_id] = draft`: replace in place, append
when absent. -/
def setSession : SessionMap → String → InvoiceDraft → SessionMap
  | [], sid, d => [(sid, d)]
  | (k, v) :: rest, sid, d =>
    if k = sid then (k, d) :: rest else (k, v) :: setSession rest sid d

/-- Dict delete `del sessions[session_id]` as `clear_session` performs
it. -/
def eraseSession : SessionMap → String → SessionMap
  | [], _ => []
  | (k, v) :: rest, sid =>
    if k = sid then eraseSession rest sid else (k, v) :: eraseSession rest sid

/-- Prefix test on character lists (structural, kernel-friendly). -/
def isPrefixChars : List Char → List Char → Bool
  | [], _ => true
  | _ :: _, [] => false
  | a :: as, b :: bs => a = b && isPrefixChars as bs

/-- Substring test on character lists: the needle is a prefix of some
suffix of the haystack — Python `needle in haystack`. -/
def containsChars (needle : List Char) : List Char → Bool
  | [] => needle.isEmpty
  | c :: rest => isPrefixChars needle (c :: rest) || containsChars needle rest

/-- The EIGHT keyword literals of `process_message` line 432: the code
also fires on `to raju`, `gmail` and the substring `com`. -/
def invoiceKeywords : List String :=
  ["invoice", "bill", "checkout", "to raju", "@", "gmail", "com", "gst"]

/-- Intent test of `process_message` lines 431-433: some keyword occurs
in the lowercased utterance. -/
def isInvoiceTalk (msg : String) : Bool :=
  invoiceKeywords.any (fun kw => containsChars kw.data (lowName msg))

/-- Response type tag of the dict `process_message` returns. -/
inductive RespType where
  | info
  | warning
  | invoice
deriving DecidableEq, Repr

/-- The response dict of `process_message`: text, type tag, and whether
a `saved_invoice_id` key is present. -/
structure Response where
  text : String
  type : RespType
  savedId : Bool
deriving DecidableEq, Repr

/-- Everything external to one `process_message` call: the LLM patch
outcome, whether the persistence sink write succeeds, the two clock
strings, and the general-assistant reply (`none` when that external call
raises and the fixed greeting is used). -/
structure Externals where
  outcome : PatchOutcome
  sinkOk : Bool
  today : String
  duePlus7 : String
  assistantReply : Option String
deriving DecidableEq, Repr

/-- Warning text of lines 441-445. -/
def warningText (tips : List String) : String :=
  "I\x27ve updated your draft, but I\x27m still missing some details:\n\n" ++
  joinWith "\n" (tips.map (fun tip => "• " ++ tip)) ++
  "\n\nJust type them in and I\x27ll update the bill!"

/-- Model of `InvoiceAssistantChatbot.process_message` (lines 423-482)
over the draft store.  Returns the store as left behind by the call and
`some` response dict — or `none` when the unhandled exception of a
failing persistence-sink write (`save_invoice`, line 457 calls line 188
with no `try` around it) propagates to the caller. -/
def processMessage (st : SessionMap) (sid : String) (msg : String) (ext : Externals) :
    SessionMap × Option Response :=
  let stored := (lookupSession st sid).getD emptyDraft
  let st0 := setSession st sid stored
  if isInvoiceTalk msg || !stored.items.isEmpty then
    let draft := updateDraft stored ext.outcome ext.today ext.duePlus7
    let st1 := setSession st0 sid (storedAfterUpdate stored ext.outcome ext.today ext.duePlus7)
    if (validate draft).isEmpty then
      if ext.sinkOk then
        (eraseSession st1 sid,
         some { text := "### 🚀 Invoice Generated Successfully!\n\n" ++ renderInvoice draft
                type := .invoice
                savedId := true })
      else
        (st1, none)
    else
      (st1, some { text := warningText (suggestions draft), type := .warning, savedId := false })
  else
    (st0, some { text := ext.assistantReply.getD "How can I help you shop today?"
                 type := .info
                 savedId := false })

/-! ## Concrete fixtures used by witnesses and counterexamples -/

/-- A patch whose JSON object carries no keys at all. -/
def emptyPatch : Patch :=
  { invoice_number := none
    customer_name := none
    customer_email := none
    customer_gst := none
    currency := none
    tax_percent := none
    shipping_fee := none
    discount := none
    discount_code := none
    items := none }

/-- A complete, finalizable draft: required fields set, one item. -/
def completeDraft : InvoiceDraft :=
  { emptyDraft with
    customer_name := some "John Doe"
    customer_email := some "john@example.com"
    invoice_date := some "2026-10-12"
    due_date := some "2026-10-19"
    tax_percent := 18
    shipping_fee := 500
    items := [⟨"Laptop", 2, 50000⟩] }

/-- A draft holding one shirt line item and nothing else. -/
def shirtDraft : InvoiceDraft :=
  { emptyDraft with items := [⟨"shirt", 3, 450⟩] }

/-- A draft with only the customer name set. -/
def johnDraft : InvoiceDraft :=
  { emptyDraft with customer_name := some "John" }

/-- A draft whose two dates are already set. -/
def datedDraft : InvoiceDraft :=
  { emptyDraft with invoice_date := some "2020-01-01", due_date := some "2020-01-08" }

/-- A draft with all four suggestion-relevant fields set and no items. -/
def fullNoItems : InvoiceDraft :=
  { emptyDraft with
    customer_name := some "John Doe"
    customer_email := some "john@example.com"
    customer_gst := some "29ABCDE1234F2Z5"
    discount_code := some "SAVE10" }

/-- A patch whose only key is an item list with one pen. -/
def penPatch : Patch :=
  { emptyPatch with items := some [⟨"pen", 1, 10⟩] }

/-- A patch whose only key is `customer_name`, present with value
`null`. -/
def nullNamePatch : Patch :=
  { emptyPatch with customer_name := some none }

/-- Externals for a turn whose LLM step failed, with a healthy sink. -/
def extNoop : Externals :=
  { outcome := .failed
    sinkOk := true
    today := "2026-10-12"
    duePlus7 := "2026-10-19"
    assistantReply := none }

/-- Externals for a turn whose LLM step failed and whose sink write
raises. -/
def extFailSink : Externals :=
  { extNoop with sinkOk := false }

end CCBot

namespace CCBot

/-! ## Theorems -/

/-- Folding a single new item is one `mergeOne` pass. -/
theorem mergeItems_singleton (ex : List InvoiceItem) (n : InvoiceItem) :
    mergeItems ex [n] = mergeOne ex n := rfl

/-- When no existing entry matches the lowered name of the new item,
`mergeOne` appends the new item at the end. -/
theorem mergeOne_no_match (ex : List InvoiceItem) (n : InvoiceItem)
    (h : ∀ e ∈ ex, lowName e.name ≠ lowName n.name) :
    mergeOne ex n = ex ++ [n] := by
  induction ex with
  | nil => rfl
  | cons e rest ih =>
    have he : lowName e.name ≠ lowName n.name := h e (List.mem_cons_self e rest)
    simp only [mergeOne, if_neg he, List.cons_append]
    rw [ih fun q hq => h q (List.mem_cons_of_mem e hq)]

/-- On the first lowered-name match, `mergeOne` adds the quantity and
overwrites the unit price there, keeps the original name, and leaves all
other entries and the order unchanged. -/
theorem mergeOne_match (pre : List InvoiceItem) (e : InvoiceItem) (post : List InvoiceItem)
    (n : InvoiceItem) (hpre : ∀ q ∈ pre, lowName q.name ≠ lowName n.name)
    (he : lowName e.name = lowName n.name) :
    mergeOne (pre ++ e :: post) n
      = pre ++ { e with quantity := e.quantity + n.quantity, unit_price := n.unit_price }
          :: post := by
  induction pre with
  | nil => simp only [List.nil_append, mergeOne, if_pos he]
  | cons q rest ih =>
    have hq : lowName q.name ≠ lowName n.name := hpre q (List.mem_cons_self q rest)
    simp only [List.cons_append, mergeOne, if_neg hq, List.append_eq]
    rw [ih fun r hr => hpre r (List.mem_cons_of_mem q hr)]

/-- C1 (amended): the merge of `update_draft` matches item names
case-insensitively but WITHOUT whitespace trimming.  A new item matching
no existing lowered name is appended at the end; on the first lowered-name
match the new quantity is added, the unit price is overwritten and the
original casing of the name is kept; a list of new items is folded in
left to right; merging (qty=2, name="Shirt", price=500) into
[(qty=3, name="shirt", price=450)] yields [(qty=5, name="shirt",
price=500)]. -/
theorem C1_item_merge :
    (∀ (ex : List InvoiceItem) (n : InvoiceItem),
        (∀ e ∈ ex, lowName e.name ≠ lowName n.name) → mergeItems ex [n] = ex ++ [n]) ∧
    (∀ (pre : List InvoiceItem) (e : InvoiceItem) (post : List InvoiceItem) (n : InvoiceItem),
        (∀ q ∈ pre, lowName q.name ≠ lowName n.name) → lowName e.name = lowName n.name →
        mergeItems (pre ++ e :: post) [n]
          = pre ++ { e with quantity := e.quantity + n.quantity, unit_price := n.unit_price }
              :: post) ∧
    (∀ (ex : List InvoiceItem) (n : InvoiceItem) (ns : List InvoiceItem),
        mergeItems ex (n :: ns) = mergeItems (mergeOne ex n) ns) ∧
    mergeItems [⟨"shirt", 3, 450⟩] [⟨"Shirt", 2, 500⟩] = [⟨"shirt", 5, 500⟩] := by
  refine ⟨?_, ?_, ?_, ?_⟩
  · intro ex n h
    exact mergeOne_no_match ex n h
  · intro pre e post n hpre he
    exact mergeOne_match pre e post n hpre he
  · intro ex n ns
    rfl
  · simp +decide [mergeItems, mergeOne]
    norm_num

/-- Witness for `C1_item_merge` at concrete inputs. -/
theorem C1_item_merge_witness :
    mergeItems [⟨"Pen", 1, 10⟩] [⟨"Book", 2, 30⟩] = [⟨"Pen", 1, 10⟩, ⟨"Book", 2, 30⟩] ∧
    mergeItems [⟨"shirt", 3, 450⟩] [⟨"Shirt", 2, 500⟩] = [⟨"shirt", 3 + 2, 500⟩] := by
  constructor
  · exact C1_item_merge.1 [⟨"Pen", 1, 10⟩] ⟨"Book", 2, 30⟩ (by decide)
  · have h := C1_item_merge.2.1 [] ⟨"shirt", 3, 450⟩ [] ⟨"Shirt", 2, 500⟩
      (by decide) (by decide)
    simpa using h

/-- C1 counterexample: the claim requires whitespace-trimmed name
matching; the code compares untrimmed lowered names, so " shirt " is
appended as a second entry rather than merged into "shirt", while the
trimmed-matching merge the claim describes would aggregate them. -/
theorem C1_item_merge_counterexample :
    mergeItems [⟨"shirt", 3, 450⟩] [⟨" shirt ", 2, 500⟩]
      = [⟨"shirt", 3, 450⟩, ⟨" shirt ", 2, 500⟩] ∧
    mergeItemsSpecTrim [⟨"shirt", 3, 450⟩] [⟨" shirt ", 2, 500⟩]
      = [⟨"shirt", 5, 500⟩] := by
  constructor
  · simp +decide [mergeItems, mergeOne]
  · simp +decide [mergeItemsSpecTrim, mergeOneSpecTrim]
    norm_num

end CCBot

namespace CCBot

/-- C2 (figures modelled from the spec, `models.py` not under `src/`):
for every draft the rendered monetary figures satisfy subtotal =
round(sum of round(qty * price, 2), 2), tax_amount = round(subtotal *
tax_percent / 100, 2) and grand_total = round(subtotal + tax_amount +
shipping_fee - discount, 2); on the concrete draft with one item
2 x Laptop at 50000, tax 18 and shipping 500 this gives 100000, 18000
and 118500. -/
theorem C2_rendered_figures :
    (∀ d : InvoiceDraft,
        (renderFigures d).subtotal
          = round2 ((d.items.map fun it => round2 (it.quantity * it.unit_price)).sum) ∧
        (renderFigures d).tax_amount
          = round2 ((renderFigures d).subtotal * d.tax_percent / 100) ∧
        (renderFigures d).grand_total
          = round2 ((renderFigures d).subtotal + (renderFigures d).tax_amount
              + d.shipping_fee - d.discount)) ∧
    (renderFigures completeDraft).subtotal = 100000 ∧
    (renderFigures completeDraft).tax_amount = 18000 ∧
    (renderFigures completeDraft).grand_total = 118500 := by
  refine ⟨fun d => ⟨rfl, rfl, rfl⟩, ?_, ?_, ?_⟩ <;>
    norm_num [renderFigures, completeDraft, emptyDraft, line_total, round2, roundHalfEven]

/-- Writing a session then reading the same id yields the written
draft. -/
theorem lookupSession_set_self : ∀ (st : SessionMap) (sid : String) (d : InvoiceDraft),
    lookupSession (setSession st sid d) sid = some d
  | [], sid, d => by simp [setSession, lookupSession]
  | (k, v) :: rest, sid, d => by
    by_cases h : k = sid
    · simp [setSession, lookupSession, h]
    · simp [setSession, lookupSession, h, lookupSession_set_self rest sid d]

/-- Writing a session leaves every other id unchanged. -/
theorem lookupSession_set_ne : ∀ (st : SessionMap) (sid sid2 : String) (d : InvoiceDraft),
    sid ≠ sid2 → lookupSession (setSession st sid d) sid2 = lookupSession st sid2
  | [], sid, sid2, d, h => by simp [setSession, lookupSession, h]
  | (k, v) :: rest, sid, sid2, d, h => by
    by_cases hk : k = sid
    · subst hk
      simp [setSession, lookupSession, h]
    · simp [setSession, lookupSession, hk, lookupSession_set_ne rest sid sid2 d h]

/-- Clearing a session removes its id from the store. -/
theorem lookupSession_erase_self : ∀ (st : SessionMap) (sid : String),
    lookupSession (eraseSession st sid) sid = none
  | [], _ => rfl
  | (k, v) :: rest, sid => by
    by_cases hk : k = sid
    · simp [eraseSession, hk, lookupSession_erase_self rest sid]
    · simp [eraseSession, lookupSession, hk, lookupSession_erase_self rest sid]

/-- Clearing a session leaves every other id unchanged. -/
theorem lookupSession_erase_ne : ∀ (st : SessionMap) (sid sid2 : String),
    sid ≠ sid2 → lookupSession (eraseSession st sid) sid2 = lookupSession st sid2
  | [], _, _, _ => rfl
  | (k, v) :: rest, sid, sid2, h => by
    by_cases hk : k = sid
    · subst hk
      simp [eraseSession, lookupSession, h, lookupSession_erase_ne rest _ sid2 h]
    · simp [eraseSession, lookupSession, hk, lookupSession_erase_ne rest sid sid2 h]

/-- C3 (amended): when a turn is routed into the invoice pipeline and
the updated draft validates clean, the controller finalizes ONLY if the
persistence sink write succeeds: then the session is cleared (a later
call starts from an empty draft) and the rendered invoice is returned.
When the sink write raises, the exception propagates out of
`process_message` uncaught: no response (and no failure flag) reaches
the caller and the session is NOT cleared — it still holds the stored
draft. -/
theorem C3_finalize :
    ∀ (st : SessionMap) (sid msg : String) (ext : Externals),
      (isInvoiceTalk msg || !((lookupSession st sid).getD emptyDraft).items.isEmpty) = true →
      validate (updateDraft ((lookupSession st sid).getD emptyDraft)
        ext.outcome ext.today ext.duePlus7) = [] →
      (ext.sinkOk = true →
        lookupSession (processMessage st sid msg ext).1 sid = none ∧
        (processMessage st sid msg ext).2
          = some { text := "### 🚀 Invoice Generated Successfully!\n\n"
                     ++ renderInvoice (updateDraft ((lookupSession st sid).getD emptyDraft)
                          ext.outcome ext.today ext.duePlus7)
                   type := .invoice
                   savedId := true }) ∧
      (ext.sinkOk = false →
        (processMessage st sid msg ext).2 = none ∧
        lookupSession (processMessage st sid msg ext).1 sid
          = some (storedAfterUpdate ((lookupSession st sid).getD emptyDraft)
              ext.outcome ext.today ext.duePlus7)) := by
  intro st sid msg ext hroute hvalid
  simp only [processMessage, hroute, if_true, hvalid, List.isEmpty_nil]
  constructor
  · intro hsink
    simp only [hsink, if_true]
    exact ⟨lookupSession_erase_self _ sid, trivial⟩
  · intro hsink
    simp only [hsink, Bool.false_eq_true, if_false]
    exact ⟨trivial, lookupSession_set_self _ sid _⟩

/-- Witness for `C3_finalize`: a complete draft, a keyword-free
utterance, both sink behaviours. -/
theorem C3_finalize_witness :
    lookupSession (processMessage [("s1", completeDraft)] "s1" "done" extNoop).1 "s1" = none ∧
    (processMessage [("s1", completeDraft)] "s1" "done" extFailSink).2 = none := by
  constructor
  · exact ((C3_finalize [("s1", completeDraft)] "s1" "done" extNoop
      (by decide) (by decide)).1 rfl).1
  · exact ((C3_finalize [("s1", completeDraft)] "s1" "done" extFailSink
      (by decide) (by decide)).2 rfl).1

/-- C3 counterexample: with a failing persistence sink the session is
NOT cleared and no rendered invoice (nor any flagged response) is
returned — the call leaves the store untouched and propagates the
exception — even though the draft had validated clean. -/
theorem C3_counterexample :
    validate (updateDraft completeDraft PatchOutcome.failed "2026-10-12" "2026-10-19") = [] ∧
    processMessage [("s1", completeDraft)] "s1" "done" extFailSink
      = ([("s1", completeDraft)], none) := by
  constructor
  · rfl
  · rfl

end CCBot

namespace CCBot

/-- Field-by-field characterization of the successful `update_draft`
path: scalars follow `dict.get`, items merge, both dates end up set to
the defaults because `validated_data` carries no date keys. -/
theorem applyValid_proj (d : InvoiceDraft) (p : Patch) (today plus7 : String) :
    (applyValid d p today plus7).invoice_number = p.invoice_number.getD d.invoice_number ∧
    (applyValid d p today plus7).customer_name = p.customer_name.getD d.customer_name ∧
    (applyValid d p today plus7).customer_email = p.customer_email.getD d.customer_email ∧
    (applyValid d p today plus7).customer_gst = p.customer_gst.getD d.customer_gst ∧
    (applyValid d p today plus7).currency = p.currency.getD d.currency ∧
    (applyValid d p today plus7).tax_percent = p.tax_percent.getD d.tax_percent ∧
    (applyValid d p today plus7).shipping_fee = p.shipping_fee.getD d.shipping_fee ∧
    (applyValid d p today plus7).discount = p.discount.getD d.discount ∧
    (applyValid d p today plus7).discount_code = p.discount_code.getD d.discount_code ∧
    (applyValid d p today plus7).items = mergeItems d.items (p.items.getD []) ∧
    (applyValid d p today plus7).invoice_date = some today ∧
    (applyValid d p today plus7).due_date = some plus7 := by
  simp [applyValid, isBlank]

/-- Field-by-field characterization of the `ValidationError` fallback
path of `update_draft`, dates apart: present keys overwrite (items are
replaced wholesale), absent keys preserve, currency is never touched. -/
theorem applyInvalid_proj (d : InvoiceDraft) (p : Patch) (today plus7 : String) :
    (applyInvalid d p today plus7).items = p.items.getD d.items ∧
    (applyInvalid d p today plus7).invoice_number = p.invoice_number.getD d.invoice_number ∧
    (applyInvalid d p today plus7).customer_name = p.customer_name.getD d.customer_name ∧
    (applyInvalid d p today plus7).customer_email = p.customer_email.getD d.customer_email ∧
    (applyInvalid d p today plus7).customer_gst = p.customer_gst.getD d.customer_gst ∧
    (applyInvalid d p today plus7).tax_percent = p.tax_percent.getD d.tax_percent ∧
    (applyInvalid d p today plus7).shipping_fee = p.shipping_fee.getD d.shipping_fee ∧
    (applyInvalid d p today plus7).discount = p.discount.getD d.discount ∧
    (applyInvalid d p today plus7).discount_code = p.discount_code.getD d.discount_code ∧
    (applyInvalid d p today plus7).currency = d.currency := by
  simp only [applyInvalid]
  split_ifs <;> simp

/-- Date behaviour of the `ValidationError` fallback path: each date is
defaulted exactly when it was unset beforehand. -/
theorem applyInvalid_dates (d : InvoiceDraft) (p : Patch) (today plus7 : String) :
    (isBlank d.invoice_date = true →
      (applyInvalid d p today plus7).invoice_date = some today) ∧
    (isBlank d.invoice_date = false →
      (applyInvalid d p today plus7).invoice_date = d.invoice_date) ∧
    (isBlank d.due_date = true → (applyInvalid d p today plus7).due_date = some plus7) ∧
    (isBlank d.due_date = false → (applyInvalid d p today plus7).due_date = d.due_date) := by
  simp only [applyInvalid]
  rcases h1 : isBlank d.invoice_date <;> rcases h2 : isBlank d.due_date <;>
    simp [h1, h2]

/-- C4 (amended): a patch that fails structural validation is NOT
discarded: the `ValidationError` fallback applies the raw patch to the
draft in place — a present `items` key REPLACES the item list wholesale
(no merge), a present scalar key overwrites its field, an absent key
leaves the field unchanged (currency is never touched on this path) —
and no user-visible error is surfaced: when required fields are still
missing, the turn returns the ordinary warning response built from the
patched draft. -/
theorem C4_invalid_patch :
    (∀ (d : InvoiceDraft) (p : Patch) (today plus7 : String),
      (p.items = none → (updateDraft d (.invalid p) today plus7).items = d.items) ∧
      (∀ its, p.items = some its → (updateDraft d (.invalid p) today plus7).items = its) ∧
      (p.customer_name = none →
        (updateDraft d (.invalid p) today plus7).customer_name = d.customer_name) ∧
      (∀ v, p.customer_name = some v →
        (updateDraft d (.invalid p) today plus7).customer_name = v) ∧
      (updateDraft d (.invalid p) today plus7).currency = d.currency) ∧
    (∀ (st : SessionMap) (sid msg : String) (p : Patch) (sk : Bool) (today plus7 : String)
        (ar : Option String),
      (isInvoiceTalk msg || !((lookupSession st sid).getD emptyDraft).items.isEmpty) = true →
      (validate (updateDraft ((lookupSession st sid).getD emptyDraft)
          (.invalid p) today plus7)).isEmpty = false →
      (processMessage st sid msg ⟨.invalid p, sk, today, plus7, ar⟩).2
        = some { text := warningText (suggestions (updateDraft
                   ((lookupSession st sid).getD emptyDraft) (.invalid p) today plus7))
                 type := .warning
                 savedId := false }) := by
  constructor
  · intro d p today plus7
    have h := applyInvalid_proj d p today plus7
    refine ⟨fun hn => ?_, fun its hi => ?_, fun hn => ?_, fun v hv => ?_, ?_⟩ <;>
      simp_all [updateDraft]
  · intro st sid msg p sk today plus7 ar hroute hval
    simp only [processMessage, hroute, if_true, hval]
    rfl

/-- Witness for `C4_invalid_patch`: the pen patch replaces the shirt
list, and the turn answers with the ordinary warning. -/
theorem C4_invalid_patch_witness :
    (updateDraft shirtDraft (.invalid penPatch) "2026-10-12" "2026-10-19").items
      = [⟨"pen", 1, 10⟩] ∧
    (processMessage [("s1", shirtDraft)] "s1" "bill"
        ⟨.invalid penPatch, true, "2026-10-12", "2026-10-19", none⟩).2
      = some { text := warningText (suggestions (updateDraft shirtDraft
                 (.invalid penPatch) "2026-10-12" "2026-10-19"))
               type := .warning
               savedId := false } := by
  constructor
  · exact (C4_invalid_patch.1 shirtDraft penPatch "2026-10-12" "2026-10-19").2.1
      [⟨"pen", 1, 10⟩] rfl
  · exact C4_invalid_patch.2 [("s1", shirtDraft)] "s1" "bill" penPatch true
      "2026-10-12" "2026-10-19" none (by decide) (by decide)

/-- C4 counterexample: the claim says a malformed patch leaves the draft
as local-extraction-only for the turn (unchanged here, there being no
local extractor); the code applies the malformed patch and replaces the
items wholesale. -/
theorem C4_counterexample :
    shirtDraft.items = [⟨"shirt", 3, 450⟩] ∧
    (updateDraft shirtDraft (.invalid penPatch) "2026-10-12" "2026-10-19").items
      = [⟨"pen", 1, 10⟩] := ⟨rfl, rfl⟩

/-- C5 (amended): on a successfully validated turn every scalar draft
field is preserved exactly when its key is ABSENT from the extracted
patch; a PRESENT key always overwrites — including a present `null`,
which erases the existing value (`dict.get(k, default)` falls back only
on a missing key, not on a present `None`). -/
theorem C5_scalar_precedence :
    ∀ (d : InvoiceDraft) (p : Patch) (today plus7 : String),
      ((p.invoice_number = none →
          (updateDraft d (.valid p) today plus7).invoice_number = d.invoice_number) ∧
        ∀ v, p.invoice_number = some v →
          (updateDraft d (.valid p) today plus7).invoice_number = v) ∧
      ((p.customer_name = none →
          (updateDraft d (.valid p) today plus7).customer_name = d.customer_name) ∧
        ∀ v, p.customer_name = some v →
          (updateDraft d (.valid p) today plus7).customer_name = v) ∧
      ((p.customer_email = none →
          (updateDraft d (.valid p) today plus7).customer_email = d.customer_email) ∧
        ∀ v, p.customer_email = some v →
          (updateDraft d (.valid p) today plus7).customer_email = v) ∧
      ((p.customer_gst = none →
          (updateDraft d (.valid p) today plus7).customer_gst = d.customer_gst) ∧
        ∀ v, p.customer_gst = some v →
          (updateDraft d (.valid p) today plus7).customer_gst = v) ∧
      ((p.currency = none →
          (updateDraft d (.valid p) today plus7).currency = d.currency) ∧
        ∀ v, p.currency = some v → (updateDraft d (.valid p) today plus7).currency = v) ∧
      ((p.tax_percent = none →
          (updateDraft d (.valid p) today plus7).tax_percent = d.tax_percent) ∧
        ∀ v, p.tax_percent = some v →
          (updateDraft d (.valid p) today plus7).tax_percent = v) ∧
      ((p.shipping_fee = none →
          (updateDraft d (.valid p) today plus7).shipping_fee = d.shipping_fee) ∧
        ∀ v, p.shipping_fee = some v →
          (updateDraft d (.valid p) today plus7).shipping_fee = v) ∧
      ((p.discount = none →
          (updateDraft d (.valid p) today plus7).discount = d.discount) ∧
        ∀ v, p.discount = some v → (updateDraft d (.valid p) today plus7).discount = v) ∧
      ((p.discount_code = none →
          (updateDraft d (.valid p) today plus7).discount_code = d.discount_code) ∧
        ∀ v, p.discount_code = some v →
          (updateDraft d (.valid p) today plus7).discount_code = v) := by
  intro d p today plus7
  have h := applyValid_proj d p today plus7
  refine ⟨⟨fun hn => ?_, fun v hv => ?_⟩, ⟨fun hn => ?_, fun v hv => ?_⟩,
    ⟨fun hn => ?_, fun v hv => ?_⟩, ⟨fun hn => ?_, fun v hv => ?_⟩,
    ⟨fun hn => ?_, fun v hv => ?_⟩, ⟨fun hn => ?_, fun v hv => ?_⟩,
    ⟨fun hn => ?_, fun v hv => ?_⟩, ⟨fun hn => ?_, fun v hv => ?_⟩,
    ⟨fun hn => ?_, fun v hv => ?_⟩⟩ <;>
  simp_all [updateDraft]

/-- Witness for `C5_scalar_precedence`: an absent key preserves the
name, a present `null` key erases it. -/
theorem C5_scalar_precedence_witness :
    (updateDraft johnDraft (.valid emptyPatch) "2026-10-12" "2026-10-19").customer_name
      = some "John" ∧
    (updateDraft johnDraft (.valid nullNamePatch) "2026-10-12" "2026-10-19").customer_name
      = none := by
  constructor
  · exact ((C5_scalar_precedence johnDraft emptyPatch "2026-10-12"
      "2026-10-19").2.1.1 rfl).trans rfl
  · exact (C5_scalar_precedence johnDraft nullNamePatch "2026-10-12"
      "2026-10-19").2.1.2 none rfl

/-- C5 counterexample: the claim says a null value never erases an
existing field; the extracted JSON carries `customer_name: null` as a
present key, and the update erases the stored name. -/
theorem C5_counterexample :
    johnDraft.customer_name = some "John" ∧
    nullNamePatch.customer_name = some none ∧
    (updateDraft johnDraft (.valid nullNamePatch) "2026-10-12" "2026-10-19").customer_name
      = none := ⟨rfl, rfl, rfl⟩

/-- C8 (amended): date defaulting is per PATH, not at-most-once per
draft.  On every successfully validated turn the draft is rebuilt
without date keys, so both dates are reset to today and today + 7 days,
overwriting whatever they held.  Only on the `ValidationError` fallback
path does each date default exactly when it was unset, preserving a
set value; a turn that fails before extraction changes nothing. -/
theorem C8_date_defaults :
    ∀ (d : InvoiceDraft) (p q : Patch) (today plus7 : String),
      (updateDraft d (.valid p) today plus7).invoice_date = some today ∧
      (updateDraft d (.valid p) today plus7).due_date = some plus7 ∧
      (isBlank d.invoice_date = true →
        (updateDraft d (.invalid q) today plus7).invoice_date = some today) ∧
      (isBlank d.invoice_date = false →
        (updateDraft d (.invalid q) today plus7).invoice_date = d.invoice_date) ∧
      (isBlank d.due_date = true →
        (updateDraft d (.invalid q) today plus7).due_date = some plus7) ∧
      (isBlank d.due_date = false →
        (updateDraft d (.invalid q) today plus7).due_date = d.due_date) ∧
      updateDraft d .failed today plus7 = d := by
  intro d p q today plus7
  have hv := applyValid_proj d p today plus7
  have hd := applyInvalid_dates d q today plus7
  exact ⟨hv.2.2.2.2.2.2.2.2.2.2.1, hv.2.2.2.2.2.2.2.2.2.2.2,
    hd.1, hd.2.1, hd.2.2.1, hd.2.2.2, rfl⟩

/-- Witness for `C8_date_defaults`: the valid path stamps the default
dates on an empty draft, the fallback path preserves an already-set
date. -/
theorem C8_date_defaults_witness :
    (updateDraft emptyDraft (.valid emptyPatch) "2026-10-12" "2026-10-19").invoice_date
      = some "2026-10-12" ∧
    (updateDraft datedDraft (.invalid emptyPatch) "2026-10-12" "2026-10-19").invoice_date
      = some "2020-01-01" := by
  constructor
  · exact (C8_date_defaults emptyDraft emptyPatch emptyPatch "2026-10-12" "2026-10-19").1
  · exact ((C8_date_defaults datedDraft emptyPatch emptyPatch "2026-10-12"
      "2026-10-19").2.2.2.1 (by decide)).trans rfl

/-- C8 counterexample: the claim says a set date is never overwritten by
the default; a successfully validated turn rebuilds the draft without
its dates and stamps today over the previously set invoice date. -/
theorem C8_counterexample :
    datedDraft.invoice_date = some "2020-01-01" ∧
    (updateDraft datedDraft (.valid emptyPatch) "2026-10-12" "2026-10-19").invoice_date
      = some "2026-10-12" := ⟨rfl, rfl⟩

end CCBot

namespace CCBot

/-- C6 (amended): the router of `process_message` fires on EIGHT keyword
substrings — `invoice`, `bill`, `checkout`, `to raju`, `@`, `gmail`,
`com`, `gst` — not on the five of the claim.  With a zero-item stored
draft, an utterance containing none of the eight is routed to the
general-assistant fallback: the updater is never invoked, the store only
gains the freshly created empty-session entry, and the response is the
`info` fallback.  Once the stored draft has items, every utterance is
routed through the updater regardless of keywords, so the response is
never of the fallback `info` type. -/
theorem C6_routing :
    ∀ (st : SessionMap) (sid msg : String) (ext : Externals),
      (((lookupSession st sid).getD emptyDraft).items = [] → isInvoiceTalk msg = false →
        (processMessage st sid msg ext).1
            = setSession st sid ((lookupSession st sid).getD emptyDraft) ∧
        (processMessage st sid msg ext).2
          = some { text := ext.assistantReply.getD "How can I help you shop today?"
                   type := .info
                   savedId := false }) ∧
      (((lookupSession st sid).getD emptyDraft).items ≠ [] →
        ∀ r, (processMessage st sid msg ext).2 = some r → r.type ≠ .info) := by
  intro st sid msg ext
  constructor
  · intro hitems hkw
    simp only [processMessage, hkw, hitems, List.isEmpty_nil, Bool.not_true,
      Bool.or_false, Bool.false_eq_true, if_false]
    constructor <;> trivial
  · intro hitems r hr
    have hb : ((lookupSession st sid).getD emptyDraft).items.isEmpty = false := by
      simpa [List.isEmpty_iff] using hitems
    have hc : (isInvoiceTalk msg
        || !((lookupSession st sid).getD emptyDraft).items.isEmpty) = true := by
      simp [hb]
    simp only [processMessage, hc, if_true] at hr
    cases h1 : (validate (updateDraft ((lookupSession st sid).getD emptyDraft)
        ext.outcome ext.today ext.duePlus7)).isEmpty with
    | false =>
      simp only [h1, Bool.false_eq_true, if_false] at hr
      injection hr with h
      subst h
      simp
    | true =>
      simp only [h1, if_true] at hr
      cases h2 : ext.sinkOk with
      | false =>
        simp only [h2, Bool.false_eq_true, if_false] at hr
        cases hr
      | true =>
        simp only [h2, if_true] at hr
        injection hr with h
        subst h
        simp

/-- Witness for `C6_routing`: a keyword-free utterance on an empty
session falls back to the assistant; the same utterance on a session
already holding an item produces a non-info response. -/
theorem C6_routing_witness :
    (processMessage [] "s1" "hello there" extNoop).2
      = some { text := "How can I help you shop today?", type := .info, savedId := false } ∧
    (Response.type { text := warningText (suggestions shirtDraft)
                     type := .warning
                     savedId := false } ≠ RespType.info) := by
  constructor
  · exact ((C6_routing [] "s1" "hello there" extNoop).1 (by decide) (by decide)).2
  · exact (C6_routing [("s1", shirtDraft)] "s1" "hello there" extNoop).2 (by decide)
      { text := warningText (suggestions shirtDraft), type := .warning, savedId := false } rfl

/-- C6 counterexample: "welcome" contains none of the five claimed
keywords (`invoice`, `bill`, `checkout`, a GST/tax keyword, an `@`), the
session has zero items, yet the code routes it into the draft-update
pipeline (the dict-membership test fires on the substring `com`) and the
turn answers with the updater warning instead of the fallback. -/
theorem C6_counterexample :
    (["invoice", "bill", "checkout", "gst", "tax", "@"].all
        fun kw => !containsChars kw.data (lowName "welcome")) = true ∧
    isInvoiceTalk "welcome" = true ∧
    (processMessage [] "s1" "welcome" extNoop).2
      = some { text := warningText [tipName, tipEmail, tipGst, tipDiscount]
               type := .warning
               savedId := false } := by
  refine ⟨by decide, by decide, rfl⟩

/-- C7: under the relaxed profile of `InvoiceEngine`, a draft with no
customer name, no customer email and no items validates to exactly the
ordered list [customer_name, customer_email, items]; and for every
draft, `items` is reported missing exactly when the item list is empty —
an item with zero quantity is not itself a validation error. -/
theorem C7_validate :
    (∀ d : InvoiceDraft, isBlank d.customer_name = true → isBlank d.customer_email = true →
        d.items = [] → validate d = ["customer_name", "customer_email", "items"]) ∧
    (∀ d : InvoiceDraft, "items" ∈ validate d ↔ d.items = []) := by
  constructor
  · intro d h1 h2 h3
    simp [validate, h1, h2, h3]
  · intro d
    cases h1 : isBlank d.customer_name <;> cases h2 : isBlank d.customer_email <;>
      cases h3 : d.items.isEmpty <;>
      simp_all [validate, List.isEmpty_iff]

/-- Witness for `C7_validate`: the empty draft misses all three required
fields, and a zero-quantity item keeps `items` off the missing list. -/
theorem C7_validate_witness :
    validate emptyDraft = ["customer_name", "customer_email", "items"] ∧
    ("items" ∈ validate { emptyDraft with items := [⟨"shirt", 0, 450⟩] }
      ↔ ({ emptyDraft with items := [⟨"shirt", 0, 450⟩] } : InvoiceDraft).items = []) := by
  constructor
  · exact C7_validate.1 emptyDraft rfl rfl rfl
  · exact C7_validate.2 { emptyDraft with items := [⟨"shirt", 0, 450⟩] }

end CCBot

namespace CCBot

/-- Processing one session never touches the stored draft of another
session id. -/
theorem processMessage_frame (st : SessionMap) (sid sid2 msg : String) (ext : Externals)
    (h : sid ≠ sid2) :
    lookupSession (processMessage st sid msg ext).1 sid2 = lookupSession st sid2 := by
  simp only [processMessage]
  split_ifs <;>
    simp [lookupSession_set_ne _ _ _ _ h, lookupSession_erase_ne _ _ _ h]

/-- The response of a turn is a function of the stored draft, the
utterance and the externals alone. -/
theorem processMessage_resp_eq (st st2 : SessionMap) (sid sid2 msg : String) (ext : Externals)
    (h : (lookupSession st sid).getD emptyDraft = (lookupSession st2 sid2).getD emptyDraft) :
    (processMessage st sid msg ext).2 = (processMessage st2 sid2 msg ext).2 := by
  simp only [processMessage, h]
  split_ifs <;> rfl

/-- What a turn leaves stored under its own session id, as a function of
the stored draft, the utterance and the externals. -/
theorem processMessage_self_lookup (st : SessionMap) (sid msg : String) (ext : Externals) :
    lookupSession (processMessage st sid msg ext).1 sid
      = (if isInvoiceTalk msg || !((lookupSession st sid).getD emptyDraft).items.isEmpty then
          if (validate (updateDraft ((lookupSession st sid).getD emptyDraft)
              ext.outcome ext.today ext.duePlus7)).isEmpty then
            if ext.sinkOk then none
            else some (storedAfterUpdate ((lookupSession st sid).getD emptyDraft)
                ext.outcome ext.today ext.duePlus7)
          else some (storedAfterUpdate ((lookupSession st sid).getD emptyDraft)
              ext.outcome ext.today ext.duePlus7)
        else some ((lookupSession st sid).getD emptyDraft)) := by
  simp only [processMessage]
  split_ifs <;> simp [lookupSession_set_self, lookupSession_erase_self]

/-- C9: the same utterance processed once in each of two distinct
sessions that both start absent (hence with empty drafts), under
identical external behaviour — same extracted patch, sink result, clock
and assistant reply, the draft identity fields of spec section 3 — gives
the same response and leaves the same stored draft under each session
id: the outcome depends only on the own-session state and the utterance,
with no cross-session coupling. -/
theorem C9_session_independence :
    ∀ (st : SessionMap) (s1 s2 msg : String) (ext : Externals),
      s1 ≠ s2 → lookupSession st s1 = none → lookupSession st s2 = none →
      (processMessage (processMessage st s1 msg ext).1 s2 msg ext).2
          = (processMessage st s1 msg ext).2 ∧
      lookupSession (processMessage (processMessage st s1 msg ext).1 s2 msg ext).1 s2
          = lookupSession (processMessage st s1 msg ext).1 s1 := by
  intro st s1 s2 msg ext hne h1 h2
  have hframe : lookupSession (processMessage st s1 msg ext).1 s2 = none := by
    rw [processMessage_frame st s1 s2 msg ext hne, h2]
  constructor
  · exact processMessage_resp_eq _ st s2 s1 msg ext (by rw [hframe, h1])
  · rw [processMessage_self_lookup, processMessage_self_lookup, hframe, h1]

/-- Witness for `C9_session_independence`: two fresh sessions, the same
utterance, identical results. -/
theorem C9_session_independence_witness :
    (processMessage (processMessage [] "a" "make a bill" extNoop).1 "b"
        "make a bill" extNoop).2
      = (processMessage [] "a" "make a bill" extNoop).2 ∧
    lookupSession (processMessage (processMessage [] "a" "make a bill" extNoop).1 "b"
        "make a bill" extNoop).1 "b"
      = lookupSession (processMessage [] "a" "make a bill" extNoop).1 "a" :=
  C9_session_independence [] "a" "b" "make a bill" extNoop (by decide) rfl rfl

/-- C10: the suggestion generator never prompts about line items — its
output is drawn from the four fixed prompts for customer name, email,
GST number and discount code, each present exactly when that field is
unset.  On a draft with all four set but no items, validation still
blocks with missing = [items] while the suggestion list is empty, so the
warning of the controller carries zero follow-up tips. -/
theorem C10_suggestions :
    (∀ d : InvoiceDraft, ∀ tip ∈ suggestions d,
        tip ∈ [tipName, tipEmail, tipGst, tipDiscount]) ∧
    (∀ d : InvoiceDraft,
      (tipName ∈ suggestions d ↔ isBlank d.customer_name = true) ∧
      (tipEmail ∈ suggestions d ↔ isBlank d.customer_email = true) ∧
      (tipGst ∈ suggestions d ↔ isBlank d.customer_gst = true) ∧
      (tipDiscount ∈ suggestions d ↔ isBlank d.discount_code = true)) ∧
    validate fullNoItems = ["items"] ∧
    suggestions fullNoItems = [] ∧
    (processMessage [("s1", fullNoItems)] "s1" "checkout" extNoop).2
      = some { text := warningText [], type := .warning, savedId := false } := by
  refine ⟨?_, ?_, rfl, rfl, rfl⟩
  · intro d tip h
    cases hn : isBlank d.customer_name <;> cases he : isBlank d.customer_email <;>
      cases hg : isBlank d.customer_gst <;> cases hd : isBlank d.discount_code <;>
      (simp_all [suggestions]; try tauto)
  · intro d
    cases hn : isBlank d.customer_name <;> cases he : isBlank d.customer_email <;>
      cases hg : isBlank d.customer_gst <;> cases hd : isBlank d.discount_code <;>
      simp [suggestions, hn, he, hg, hd, tipName, tipEmail, tipGst, tipDiscount]

/-- Witness for `C10_suggestions`: the GST tip generated on the empty
draft is one of the four fixed prompts, and the name tip appears exactly
because the name is unset. -/
theorem C10_suggestions_witness :
    tipGst ∈ [tipName, tipEmail, tipGst, tipDiscount] ∧
    tipName ∈ suggestions emptyDraft := by
  constructor
  · exact C10_suggestions.1 emptyDraft tipGst (by decide)
  · exact (C10_suggestions.2.1 emptyDraft).1.mpr rfl

end CCBot
